import Mathlib

/-!
Shallow embedding of the `wgpu-mipmap` copy-based mipmap generator
(`src/backends/copy.rs`) and the parts of its environment the spec
describes.  `CopyMipmapGenerator::generate` is modelled as a pure
function that returns its `Result` together with a trace of the GPU
resources it creates and the commands it records into the encoder.
-/

namespace WgpuMipmap

/-- Texture usage bit flags, with the bit values of `wgpu::TextureUsages`. -/
def COPY_SRC : Nat := 1

/-- Copy-destination capability bit. -/
def COPY_DST : Nat := 2

/-- Sampled-read capability bit. -/
def TEXTURE_BINDING : Nat := 4

/-- Storage-binding capability bit. -/
def STORAGE_BINDING : Nat := 8

/-- Render-attachment capability bit. -/
def RENDER_ATTACHMENT : Nat := 16

/-- Whether the usage bit set `u` contains every bit of `f`. -/
def containsUsage (u f : Nat) : Bool := u &&& f == f

/-- `wgpu::Extent3d`. -/
structure Extent3d where
  width : Nat
  height : Nat
  depth_or_array_layers : Nat
deriving DecidableEq

/-- `wgpu::TextureDimension`. -/
inductive TextureDimension where
  | D1
  | D2
  | D3
deriving DecidableEq

/-- The texture formats the repository's tests exercise, plus one more. -/
inductive TextureFormat where
  | R8Unorm
  | Rgba8Unorm
  | Bgra8Unorm
deriving DecidableEq

/-- `wgpu::TextureAspect`. -/
inductive TextureAspect where
  | All
  | StencilOnly
  | DepthOnly
deriving DecidableEq

/-- `wgpu::Origin3d`. -/
structure Origin3d where
  x : Nat
  y : Nat
  z : Nat
deriving DecidableEq

/-- `Origin3d::default()`: the zero origin. -/
def Origin3d.zero : Origin3d := ⟨0, 0, 0⟩

/-- `wgpu::TextureDescriptor`, with `usage` as a bit set. -/
structure TextureDescriptor where
  label : Option String
  size : Extent3d
  mip_level_count : Nat
  sample_count : Nat
  dimension : TextureDimension
  format : TextureFormat
  usage : Nat
deriving DecidableEq

/-- Modelled from the spec: `core::Error` is not under `src/`; spec §7 names
the two error kinds `UnsupportedFormat(format)` and
`UnsupportedUsage(capability_set)`. -/
inductive Error where
  | UnsupportedFormat (format : TextureFormat)
  | UnsupportedUsage (usage : Nat)
deriving DecidableEq

/-- Modelled from the spec: `crate::util::get_mip_extent` is not under `src/`;
only its call sites appear there.  Spec §3: the mip extent at level `i` is
`max(1, base_dimension >> i)` applied independently to width and height;
array layers do not shrink, while depth in a 3D texture does.  The
dimensionality the spec makes the third-axis behavior depend on is taken as
an explicit argument. -/
def get_mip_extent (extent : Extent3d) (dimension : TextureDimension)
    (level : Nat) : Extent3d :=
  { width := max 1 (extent.width >>> level)
    height := max 1 (extent.height >>> level)
    depth_or_array_layers :=
      match dimension with
      | .D3 => max 1 (extent.depth_or_array_layers >>> level)
      | _ => extent.depth_or_array_layers }

/-- Modelled from the spec: `RenderMipmapGenerator::required_usage` is not
under `src/`.  Spec §4.2: "required_usage() = {sampled-read capability,
render-attachment capability}". -/
def RenderMipmapGenerator.required_usage : Nat :=
  TEXTURE_BINDING ||| RENDER_ATTACHMENT

/-- `CopyMipmapGenerator::required_usage` (src/backends/copy.rs, lines 22-24):
`TextureUsages::TEXTURE_BINDING | TextureUsages::COPY_DST`. -/
def CopyMipmapGenerator.required_usage : Nat :=
  TEXTURE_BINDING ||| COPY_DST

/-- The temporary descriptor built inside `CopyMipmapGenerator::generate`
(src/backends/copy.rs, lines 39-47), field by field. -/
def tmp_descriptor_of (texture_descriptor : TextureDescriptor) :
    TextureDescriptor :=
  { label := none
    size := get_mip_extent texture_descriptor.size texture_descriptor.dimension 1
    mip_level_count := texture_descriptor.mip_level_count - 1
    sample_count := texture_descriptor.sample_count
    dimension := texture_descriptor.dimension
    format := texture_descriptor.format
    usage := RenderMipmapGenerator.required_usage ||| COPY_SRC }

/-- One invocation of the wrapped render generator's `generate_src_dst`:
its arguments in source order (textures are opaque ids). -/
structure GsdCall where
  src : Nat
  dst : Nat
  src_descriptor : TextureDescriptor
  dst_descriptor : TextureDescriptor
  src_base_level : Nat
deriving DecidableEq

/-- `wgpu::ImageCopyTexture`: one side of a texture-to-texture copy. -/
structure ImageCopyTexture where
  texture : Nat
  mip_level : Nat
  origin : Origin3d
  aspect : TextureAspect
deriving DecidableEq

/-- One `copy_texture_to_texture` command recorded into the encoder. -/
structure CopyCmd where
  src : ImageCopyTexture
  dst : ImageCopyTexture
  extent : Extent3d
deriving DecidableEq

/-- Everything one `generate` call creates or records: the textures it
creates on the device (fresh id paired with the descriptor passed to
`create_texture`), the `generate_src_dst` invocations it makes, and the
texture-to-texture copies it records into the encoder. -/
structure GenerateTrace where
  created : List (Nat × TextureDescriptor)
  gsd_calls : List GsdCall
  copies : List CopyCmd
deriving DecidableEq

/-- `CopyMipmapGenerator::generate` (src/backends/copy.rs, lines 28-77).
The wrapped render generator's behavior is a parameter `gsd` giving the
result of its `generate_src_dst`; `device` is the fresh id the device's
`create_texture` hands out; `texture` is the original texture's id.
The source builds `tmp_descriptor`, creates the temporary texture,
calls `generate_src_dst(device, encoder, texture, tmp, desc, tmp_desc, 1)`
propagating any error with `?`, then records one
`copy_texture_to_texture` per temporary level `i < tmp.mip_level_count`
from temporary level `i` into original level `i + 1` with extent
`get_mip_extent(tmp_descriptor.size, i)`, and returns `Ok(())`. -/
def CopyMipmapGenerator.generate
    (gsd : GsdCall → Except Error Unit)
    (device : Nat) (texture : Nat)
    (texture_descriptor : TextureDescriptor) :
    Except Error Unit × GenerateTrace :=
  let tmp_descriptor := tmp_descriptor_of texture_descriptor
  let tmp_texture := device
  let call : GsdCall :=
    ⟨texture, tmp_texture, texture_descriptor, tmp_descriptor, 1⟩
  let result := gsd call
  let mip_count := tmp_descriptor.mip_level_count
  let copies :=
    match result with
    | .error _ => []
    | .ok _ =>
      (List.range mip_count).map fun i =>
        { src := ⟨tmp_texture, i, Origin3d.zero, TextureAspect.All⟩
          dst := ⟨texture, i + 1, Origin3d.zero, TextureAspect.All⟩
          extent :=
            get_mip_extent tmp_descriptor.size texture_descriptor.dimension i }
  (result,
    { created := [(tmp_texture, tmp_descriptor)]
      gsd_calls := [call]
      copies := copies })

/-- Modelled from the spec: `RenderMipmapGenerator::generate_src_dst` is not
under `src/`.  Spec §4.1/§7: it fails with `UnsupportedUsage` when a
descriptor's declared capability set does not include what the render pass
needs (the source texture is sampled, the destination is rendered into),
and with `UnsupportedFormat` when the format is absent from the capability
registry built from the caller-supplied format hints; the test
`unsupported_format` in copy.rs expects `UnsupportedUsage(src usage)` for an
empty source usage set. -/
def RenderMipmapGenerator.generate_src_dst
    (registry : List TextureFormat) (c : GsdCall) : Except Error Unit :=
  if !(containsUsage c.src_descriptor.usage TEXTURE_BINDING) then
    .error (.UnsupportedUsage c.src_descriptor.usage)
  else if !(containsUsage c.dst_descriptor.usage RenderMipmapGenerator.required_usage) then
    .error (.UnsupportedUsage c.dst_descriptor.usage)
  else if c.src_descriptor.format ∈ registry then
    .ok ()
  else
    .error (.UnsupportedFormat c.src_descriptor.format)

/-- The 511x511 R8Unorm descriptor of the repository's `sanity_check` test,
with the full mip chain count 1 + floor(log2 511) = 9. -/
def d511 : TextureDescriptor :=
  { label := none
    size := ⟨511, 511, 1⟩
    mip_level_count := 9
    sample_count := 1
    dimension := .D2
    format := .R8Unorm
    usage := CopyMipmapGenerator.required_usage }

/-- A descriptor with mip level count 1 (the unguarded edge case). -/
def d_mip1 : TextureDescriptor :=
  { label := none
    size := ⟨4, 4, 1⟩
    mip_level_count := 1
    sample_count := 1
    dimension := .D2
    format := .R8Unorm
    usage := CopyMipmapGenerator.required_usage }

/-- The 511x511 descriptor with an empty usage set, as in the
`unsupported_format` test of copy.rs. -/
def d_empty_usage : TextureDescriptor :=
  { label := none
    size := ⟨511, 511, 1⟩
    mip_level_count := 9
    sample_count := 1
    dimension := .D2
    format := .R8Unorm
    usage := 0 }

/-- One axis of the extent composition: taking the level-1 extent and then
the level-`j` extent of that equals taking the level-`(j+1)` extent. -/
theorem mip_axis_step (w j : Nat) :
    max 1 ((max 1 (w >>> 1)) >>> j) = max 1 (w >>> (j + 1)) := by
  simp only [Nat.shiftRight_eq_div_pow, pow_one]
  rcases Nat.lt_or_ge w 2 with hw | hw
  · have h1 : w / 2 = 0 := Nat.div_eq_of_lt hw
    have h2 : w / 2 ^ (j + 1) = 0 :=
      Nat.div_eq_of_lt (lt_of_lt_of_le hw (le_trans (by norm_num)
        (Nat.pow_le_pow_right (by norm_num) (Nat.le_add_left 1 j))))
    rw [h1, h2]
    exact (Nat.max_eq_left (Nat.div_le_self 1 _)).trans (Nat.max_eq_left (Nat.le_refl 1)).symm
  · have h1 : max 1 (w / 2) = w / 2 :=
      Nat.max_eq_right ((Nat.le_div_iff_mul_le (by norm_num)).2 (by omega))
    rw [h1, Nat.div_div_eq_div_mul, pow_succ, mul_comm 2 (2 ^ j)]

/-- C1: the spec mandates that a descriptor with mip level count 1 be treated
as a guarded no-op success with no temporary descriptor derived and no
temporary texture allocated.  The code has no such guard: evaluated at a
4x4 descriptor with mip level count 1, `generate` derives a temporary
descriptor with mip level count 0, passes it to the device's
`create_texture`, and still invokes the wrapped generator on it. -/
theorem generate_mip1_allocates_zero_level_tmp :
    (CopyMipmapGenerator.generate (fun _ => .ok ()) 100 7 d_mip1).2.created =
      [(100, tmp_descriptor_of d_mip1)] ∧
    (tmp_descriptor_of d_mip1).mip_level_count = 0 ∧
    (CopyMipmapGenerator.generate (fun _ => .ok ()) 100 7 d_mip1).2.gsd_calls =
      [⟨7, 100, d_mip1, tmp_descriptor_of d_mip1, 1⟩] :=
  ⟨rfl, rfl, rfl⟩

/-- C2: `CopyMipmapGenerator::required_usage()` is exactly
{TEXTURE_BINDING, COPY_DST}: it contains those two capability bits and
none of the other texture usage bits; being an associated function with no
parameters, it cannot depend on the wrapped generator or on any texture. -/
theorem copy_required_usage_exact :
    containsUsage CopyMipmapGenerator.required_usage TEXTURE_BINDING = true ∧
    containsUsage CopyMipmapGenerator.required_usage COPY_DST = true ∧
    containsUsage CopyMipmapGenerator.required_usage COPY_SRC = false ∧
    containsUsage CopyMipmapGenerator.required_usage STORAGE_BINDING = false ∧
    containsUsage CopyMipmapGenerator.required_usage RENDER_ATTACHMENT = false := by
  decide

/-- C3: for every input descriptor with mip level count at least 2, the one
texture `generate` creates is described by: the input's level-1 mip extent,
one fewer mip level, the same format, sample count and dimensionality, and
usage equal to the render generator's required usage plus COPY_SRC. -/
theorem generate_tmp_descriptor_fields
    (gsd : GsdCall → Except Error Unit) (device texture : Nat)
    (d : TextureDescriptor) (_h : 2 ≤ d.mip_level_count) :
    (CopyMipmapGenerator.generate gsd device texture d).2.created =
      [(device,
        { label := none
          size := get_mip_extent d.size d.dimension 1
          mip_level_count := d.mip_level_count - 1
          sample_count := d.sample_count
          dimension := d.dimension
          format := d.format
          usage := RenderMipmapGenerator.required_usage ||| COPY_SRC })] := rfl

/-- Witness for C3 at the repository's 511x511, 9-level test descriptor. -/
theorem generate_tmp_descriptor_fields_witness :
    2 ≤ d511.mip_level_count ∧
    (CopyMipmapGenerator.generate (fun _ => .ok ()) 3 7 d511).2.created =
      [(3,
        { label := none
          size := get_mip_extent d511.size d511.dimension 1
          mip_level_count := d511.mip_level_count - 1
          sample_count := d511.sample_count
          dimension := d511.dimension
          format := d511.format
          usage := RenderMipmapGenerator.required_usage ||| COPY_SRC })] :=
  ⟨by decide,
    generate_tmp_descriptor_fields (fun _ => .ok ()) 3 7 d511 (by decide)⟩

/-- C4: every `generate` call invokes the wrapped generator's
`generate_src_dst` exactly once, with source the original texture,
destination the texture the call itself just created on the device, the
original and temporary descriptors, and source base level 1. -/
theorem generate_calls_gsd_once
    (gsd : GsdCall → Except Error Unit) (device texture : Nat)
    (d : TextureDescriptor) :
    (CopyMipmapGenerator.generate gsd device texture d).2.gsd_calls =
      [⟨texture, device, d, tmp_descriptor_of d, 1⟩] ∧
    (CopyMipmapGenerator.generate gsd device texture d).2.created =
      [(device, tmp_descriptor_of d)] :=
  ⟨rfl, rfl⟩

/-- C5: on the success path, the copies `generate` records are exactly one
copy per temporary level `j` in `0..(input mip level count - 1)`, in
increasing order, from temporary level `j` (origin zero, all aspects) into
original level `j + 1` (origin zero, all aspects), with extent the
temporary texture's level-`j` mip extent — and nothing else. -/
theorem generate_copies_exact
    (gsd : GsdCall → Except Error Unit) (device texture : Nat)
    (d : TextureDescriptor)
    (h : gsd ⟨texture, device, d, tmp_descriptor_of d, 1⟩ = .ok ()) :
    (CopyMipmapGenerator.generate gsd device texture d).2.copies =
      (List.range (d.mip_level_count - 1)).map fun j =>
        { src := ⟨device, j, Origin3d.zero, TextureAspect.All⟩
          dst := ⟨texture, j + 1, Origin3d.zero, TextureAspect.All⟩
          extent := get_mip_extent (tmp_descriptor_of d).size d.dimension j } := by
  simp only [CopyMipmapGenerator.generate, h]
  rfl

/-- Witness for C5 at the repository's 511x511, 9-level test descriptor. -/
theorem generate_copies_exact_witness :
    (fun _ => Except.ok () : GsdCall → Except Error Unit)
        ⟨7, 3, d511, tmp_descriptor_of d511, 1⟩ = .ok () ∧
    (CopyMipmapGenerator.generate (fun _ => .ok ()) 3 7 d511).2.copies =
      (List.range (d511.mip_level_count - 1)).map fun j =>
        { src := ⟨3, j, Origin3d.zero, TextureAspect.All⟩
          dst := ⟨7, j + 1, Origin3d.zero, TextureAspect.All⟩
          extent := get_mip_extent (tmp_descriptor_of d511).size d511.dimension j } :=
  ⟨rfl, generate_copies_exact (fun _ => .ok ()) 3 7 d511 rfl⟩

/-- C6: the mip extent at level `i` is `max(1, base >> i)` independently on
width and height, leaves array layers unchanged for 1D and 2D textures, and
halves depth (with floor at 1) for 3D textures. -/
theorem get_mip_extent_per_axis (e : Extent3d) (dim : TextureDimension)
    (i : Nat) :
    (get_mip_extent e dim i).width = max 1 (e.width >>> i) ∧
    (get_mip_extent e dim i).height = max 1 (e.height >>> i) ∧
    (get_mip_extent e TextureDimension.D1 i).depth_or_array_layers =
      e.depth_or_array_layers ∧
    (get_mip_extent e TextureDimension.D2 i).depth_or_array_layers =
      e.depth_or_array_layers ∧
    (get_mip_extent e TextureDimension.D3 i).depth_or_array_layers =
      max 1 (e.depth_or_array_layers >>> i) :=
  ⟨rfl, rfl, rfl, rfl, rfl⟩

/-- C7: the temporary texture's level-`j` mip extent equals the original
texture's level-`(j+1)` mip extent: composing `get_mip_extent` at level 1
with `get_mip_extent` at level `j` equals `get_mip_extent` at level
`j + 1`, so the recorded copy extent matches the destination level. -/
theorem get_mip_extent_compose (e : Extent3d) (dim : TextureDimension)
    (j : Nat) :
    get_mip_extent (get_mip_extent e dim 1) dim j =
      get_mip_extent e dim (j + 1) := by
  cases dim <;> simp [get_mip_extent, mip_axis_step]

/-- C8: when the wrapped generator's `generate_src_dst` fails, `generate`
returns that exact error value unchanged, and the wrapped generator was
invoked exactly once (no retry). -/
theorem generate_propagates_gsd_error
    (gsd : GsdCall → Except Error Unit) (device texture : Nat)
    (d : TextureDescriptor) (e : Error)
    (h : gsd ⟨texture, device, d, tmp_descriptor_of d, 1⟩ = .error e) :
    (CopyMipmapGenerator.generate gsd device texture d).1 = .error e ∧
    (CopyMipmapGenerator.generate gsd device texture d).2.gsd_calls =
      [⟨texture, device, d, tmp_descriptor_of d, 1⟩] :=
  ⟨h, rfl⟩

/-- Witness for C8 with a wrapped generator that fails with
`UnsupportedFormat`. -/
theorem generate_propagates_gsd_error_witness :
    (fun _ => Except.error (Error.UnsupportedFormat .Rgba8Unorm) :
        GsdCall → Except Error Unit)
        ⟨7, 3, d511, tmp_descriptor_of d511, 1⟩ =
      .error (Error.UnsupportedFormat .Rgba8Unorm) ∧
    ((CopyMipmapGenerator.generate
          (fun _ => .error (Error.UnsupportedFormat .Rgba8Unorm)) 3 7 d511).1 =
        .error (Error.UnsupportedFormat .Rgba8Unorm) ∧
      (CopyMipmapGenerator.generate
          (fun _ => .error (Error.UnsupportedFormat .Rgba8Unorm)) 3 7 d511).2.gsd_calls =
        [⟨7, 3, d511, tmp_descriptor_of d511, 1⟩]) :=
  ⟨rfl,
    generate_propagates_gsd_error
      (fun _ => .error (Error.UnsupportedFormat .Rgba8Unorm)) 3 7 d511
      (Error.UnsupportedFormat .Rgba8Unorm) rfl⟩

/-- C9: with the spec-modelled render generator wrapped, a texture whose
descriptor declares an empty capability set makes `generate` fail with
`UnsupportedUsage` carrying that empty set, for every format registry. -/
theorem generate_empty_usage_unsupported
    (registry : List TextureFormat) (device texture : Nat)
    (d : TextureDescriptor) (h : d.usage = 0) :
    (CopyMipmapGenerator.generate
        (RenderMipmapGenerator.generate_src_dst registry) device texture d).1 =
      .error (Error.UnsupportedUsage 0) := by
  simp [CopyMipmapGenerator.generate, RenderMipmapGenerator.generate_src_dst,
    containsUsage, TEXTURE_BINDING, h]

/-- Witness for C9 at the `unsupported_format` test's empty-usage
descriptor with the registry the test builds from its format hint. -/
theorem generate_empty_usage_unsupported_witness :
    d_empty_usage.usage = 0 ∧
    (CopyMipmapGenerator.generate
        (RenderMipmapGenerator.generate_src_dst [.R8Unorm]) 3 7 d_empty_usage).1 =
      .error (Error.UnsupportedUsage 0) :=
  ⟨rfl, generate_empty_usage_unsupported [.R8Unorm] 3 7 d_empty_usage rfl⟩

/-- C10: when the wrapped generator's `generate_src_dst` fails, the failed
`generate` call records no texture-to-texture copies into the encoder, so
the original texture's levels are never named as a copy destination. -/
theorem generate_gsd_error_records_no_copies
    (gsd : GsdCall → Except Error Unit) (device texture : Nat)
    (d : TextureDescriptor) (e : Error)
    (h : gsd ⟨texture, device, d, tmp_descriptor_of d, 1⟩ = .error e) :
    (CopyMipmapGenerator.generate gsd device texture d).2.copies = [] := by
  simp only [CopyMipmapGenerator.generate, h]

/-- Witness for C10 with a wrapped generator failing with
`UnsupportedUsage`. -/
theorem generate_gsd_error_records_no_copies_witness :
    (fun _ => Except.error (Error.UnsupportedUsage 5) :
        GsdCall → Except Error Unit)
        ⟨2, 11, d511, tmp_descriptor_of d511, 1⟩ =
      .error (Error.UnsupportedUsage 5) ∧
    (CopyMipmapGenerator.generate
        (fun _ => .error (Error.UnsupportedUsage 5)) 11 2 d511).2.copies = [] :=
  ⟨rfl,
    generate_gsd_error_records_no_copies
      (fun _ => .error (Error.UnsupportedUsage 5)) 11 2 d511
      (Error.UnsupportedUsage 5) rfl⟩

end WgpuMipmap
